import Mathlib

/-!
Shallow embedding of `src/supply_chain_score/model/githubrepo.py` (class
`GithubRepo`, subclass of `Repo` from `repo.py`).

HTTP is modelled by an oracle `net : String → NetResult α` mapping a request
URL to either a connection-level failure (`urllib3.exceptions.MaxRetryError`,
modelled by `NetResult.maxRetryError`) or a successful response whose body has
already been decoded from JSON into a list of records (`NetResult.success`).
The records themselves are opaque (a type parameter `α`).  Besides the data
the paginated call returns, the embedding records the list of URLs actually
requested, in order, so that properties about the number of HTTP requests
issued can be stated.  Logging calls (`self.ctx.logger.info(...)`) are
side-effect only and are not modelled.
-/

namespace SupplyChainScore

/-- `GithubRepo.max_elements_per_page = 100`. -/
def max_elements_per_page : Nat := 100

/-- `GithubRepo.max_pages = 10`. -/
def max_pages : Nat := 10

/-- Python truthiness of the `extra_params` argument (`None` and the empty
string are falsy, every other string is truthy). -/
def pyTruthy : Option String → Bool
  | none => false
  | some s => !s.isEmpty

/-- `GithubRepo.get_api_url`:
`url = api_endpoint + "?"`;
`url += "{}&".format(extra_params) if extra_params else ""`;
`url += "per_page={}".format(self.max_elements_per_page)`. -/
def get_api_url (api_endpoint : String) (extra_params : Option String) : String :=
  let url := api_endpoint ++ "?"
  let url := url ++ (if pyTruthy extra_params then (extra_params.getD "") ++ "&" else "")
  url ++ ("per_page=" ++ toString max_elements_per_page)

/-- Outcome of one HTTP GET: a connection-level failure
(`urllib3.exceptions.MaxRetryError`) or a JSON-decoded body. -/
inductive NetResult (α : Type) where
  | maxRetryError : NetResult α
  | success : List α → NetResult α
deriving DecidableEq

/-- URL of a subsequent page: `url + "&page={}".format(page_number)`. -/
def pageUrl (url : String) (page_number : Nat) : String :=
  url ++ "&page=" ++ toString page_number

/-- The `while paginate:` loop of `GithubRepo._paginated_api_call`.  State on
entry: `page_number` (last fetched page), `data` (accumulated records) and the
flag `paginate`.  Each iteration increments the page number, requests
`url + "&page=<n>"`, and on `MaxRetryError` returns the data accumulated so
far (`return data`); otherwise it recomputes
`paginate = len(new_data) == self.max_elements_per_page and page_number < self.max_pages`
and extends `data` with `new_data`.  The second component collects the URLs
requested by the loop, in order (a failed request is still a request). -/
def paginatedLoop {α : Type} (net : String → NetResult α) (url : String)
    (page_number : Nat) (data : List α) (paginate : Bool) :
    List α × List String :=
  if h : paginate then
    match net (pageUrl url (page_number + 1)) with
    | .maxRetryError => (data, [pageUrl url (page_number + 1)])
    | .success new_data =>
        let rest := paginatedLoop net url (page_number + 1) (data ++ new_data)
          (new_data.length == max_elements_per_page && decide (page_number + 1 < max_pages))
        (rest.1, pageUrl url (page_number + 1) :: rest.2)
  else (data, [])
termination_by (cond paginate 1 0) + (max_pages - page_number)
decreasing_by
  cases hb : (new_data.length == max_elements_per_page && decide (page_number + 1 < max_pages)) with
  | false =>
      rw [h]
      simp only [Bool.cond_true, Bool.cond_false]
      have e3 : max_pages = 10 := rfl
      rw [e3]
      omega
  | true =>
      have hlt : page_number + 1 < max_pages :=
        of_decide_eq_true ((Bool.and_eq_true _ _).mp hb).2
      rw [h]
      simp only [Bool.cond_true]
      have e3 : max_pages = 10 := rfl
      rw [e3] at hlt ⊢
      omega

/-- `GithubRepo._paginated_api_call(api_endpoint, extra_params=None)`.
Returns `none` when the very first request raises `MaxRetryError` (Python
`return None`), otherwise `some` of the accumulated records.  The second
component is the full list of request URLs issued, first request included. -/
def paginated_api_call {α : Type} (net : String → NetResult α)
    (api_endpoint : String) (extra_params : Option String) :
    Option (List α) × List String :=
  let url := get_api_url api_endpoint extra_params
  match net url with
  | .maxRetryError => (none, [url])
  | .success data =>
      let res := paginatedLoop net url 1 data (data.length == max_elements_per_page)
      (some res.1, url :: res.2)

/-- Endpoint built by `GithubRepo.get_issues`:
`"https://api.github.com/repos/{}/{}/issues".format(self.owner, self.name)`. -/
def issues_endpoint (owner name : String) : String :=
  "https://api.github.com/repos/" ++ owner ++ "/" ++ name ++ "/issues"

/-- `GithubRepo.get_issues`: delegates to the paginated call with the extra
parameter `state=all`. -/
def get_issues {α : Type} (net : String → NetResult α) (owner name : String) :
    Option (List α) × List String :=
  paginated_api_call net (issues_endpoint owner name) (some "state=all")

/-- Python's `str.split(sep)` for a one-character separator, on the string's
characters: `"".split(sep) == [""]`, separators at the ends produce empty
segments, and the list returned is never empty. -/
def splitChar (sep : Char) : List Char → List (List Char)
  | [] => [[]]
  | c :: cs =>
    match splitChar sep cs with
    | [] => [[c]]
    | r :: rs => if c = sep then [] :: r :: rs else (c :: r) :: rs

/-- Python list indexing `l[position]` with negative positions counting from
the end.  `none` models the `IndexError` Python raises when the position is
out of range. -/
def pyIndex {α : Type} (l : List α) (position : Int) : Option α :=
  if 0 ≤ position then l[position.toNat]?
  else
    let j : Int := (l.length : Int) + position
    if 0 ≤ j then l[j.toNat]? else none

/-- `GithubRepo._parse_github_url(position, log_text)`:
`self.url.split('/')[position]` (the logging call is side-effect only).
`none` models the `IndexError` raised when the index is out of range. -/
def parse_github_url (url : String) (position : Int) : Option String :=
  (pyIndex (splitChar '/' url.toList) position).map (fun cs => String.mk cs)

/-- `GithubRepo.get_owner`: `self._parse_github_url(-2, ...)`. -/
def get_owner (url : String) : Option String := parse_github_url url (-2)

/-- `GithubRepo.get_name`: `self._parse_github_url(-1, ...)`. -/
def get_name (url : String) : Option String := parse_github_url url (-1)

/-- A `datetime.datetime` value (date and time of day), as far as this
program uses it: year, month, day, hour, minute, second. -/
structure PyDateTime where
  year : Nat
  month : Nat
  day : Nat
  hour : Nat
  minute : Nat
  second : Nat
deriving DecidableEq

/-- Python's `datetime` comparison: strict lexicographic order on
(year, month, day, hour, minute, second). -/
def PyDateTime.lt (a b : PyDateTime) : Bool :=
  if a.year = b.year then
    if a.month = b.month then
      if a.day = b.day then
        if a.hour = b.hour then
          if a.minute = b.minute then decide (a.second < b.second)
          else decide (a.minute < b.minute)
        else decide (a.hour < b.hour)
      else decide (a.day < b.day)
    else decide (a.month < b.month)
  else decide (a.year < b.year)

/-- A run of decimal digits read as a number, `none` on a non-digit;
helper for `digitsToNat?`. -/
def digitsToNatAux : List Char → Nat → Option Nat
  | [], acc => some acc
  | c :: cs, acc =>
      if c.isDigit then digitsToNatAux cs (acc * 10 + (c.toNat - 48)) else none

/-- A non-empty all-digit character list read as a decimal number (the way
`strptime` consumes each numeric field); `none` otherwise. -/
def digitsToNat? (cs : List Char) : Option Nat :=
  match cs with
  | [] => none
  | _ :: _ => digitsToNatAux cs 0

/-- `datetime.datetime.strptime(s, '%Y-%m-%dT%H:%M:%SZ')` on this program's
inputs: split the string on `T` into date and time, the date on `-` into
year, month, day, the time on `:` into hour, minute, and a seconds field that
must end in the literal `Z`; every numeric field is a run of digits.  `none`
models the `ValueError` raised when the string does not match the format. -/
def strptime_commit_date (s : String) : Option PyDateTime :=
  match splitChar 'T' s.toList with
  | [d, t] =>
    match splitChar '-' d, splitChar ':' t with
    | [y, mo, da], [h, mi, se] =>
      match se.getLast? with
      | some 'Z' =>
        match digitsToNat? y, digitsToNat? mo, digitsToNat? da,
              digitsToNat? h, digitsToNat? mi, digitsToNat? se.dropLast with
        | some yv, some mov, some dav, some hv, some miv, some sv =>
            some ⟨yv, mov, dav, hv, miv, sv⟩
        | _, _, _, _, _, _ => none
      | _ => none
    | _, _ => none
  | _ => none

/-- The nested shape `commit['commit']['author']['date']` of a commit record,
keeping only the field this program reads. -/
structure CommitAuthor where
  date : String
deriving DecidableEq

structure CommitInfo where
  author : CommitAuthor
deriving DecidableEq

structure Commit where
  commit : CommitInfo
deriving DecidableEq

/-- `GithubRepo.is_commit_before_date(commit, date)`:
`commit_date = datetime.datetime.strptime(commit['commit']['author']['date'], '%Y-%m-%dT%H:%M:%SZ')`;
`return commit_date < date`.  `none` models the uncaught `ValueError` when
the date string does not match the format. -/
def is_commit_before_date (c : Commit) (date : PyDateTime) : Option Bool :=
  (strptime_commit_date c.commit.author.date).map (fun cd => PyDateTime.lt cd date)

/-- The five result collections a constructed `GithubRepo` holds.  Each is
`Option (List α)`: `none` is the Python `None` a failed first-page fetch
stores, `some l` is a fetched list of records. -/
structure GithubRepoCollections (α : Type) where
  contributors : Option (List α)
  forks : Option (List α)
  releases : Option (List α)
  issues : Option (List α)
  commits : Option (List α)

/-- `GithubRepo.get_total_contributors`: `len(self.contributors)`.  `none`
models the `TypeError` Python raises on `len(None)`. -/
def get_total_contributors {α : Type} (r : GithubRepoCollections α) : Option Nat :=
  r.contributors.map List.length

/-- `GithubRepo.get_total_forks`: `len(self.forks)`. -/
def get_total_forks {α : Type} (r : GithubRepoCollections α) : Option Nat :=
  r.forks.map List.length

/-- `GithubRepo.get_total_releases`: `len(self.releases)`. -/
def get_total_releases {α : Type} (r : GithubRepoCollections α) : Option Nat :=
  r.releases.map List.length

/-- `GithubRepo.get_total_issues`: `len(self.issues)`. -/
def get_total_issues {α : Type} (r : GithubRepoCollections α) : Option Nat :=
  r.issues.map List.length

/-- `GithubRepo.get_total_commits`: `len(self.commits)`. -/
def get_total_commits {α : Type} (r : GithubRepoCollections α) : Option Nat :=
  r.commits.map List.length

/-- Concatenation of `pages a, pages (a+1), ..., pages b` (empty when
`b < a`): the shape of the data `_paginated_api_call` accumulates. -/
def pagesConcat {α : Type} (pages : Nat → List α) (a b : Nat) : List α :=
  ((List.range' a (b + 1 - a)).map pages).flatten

/-! ### Concrete network oracles used to evaluate the theorems below -/

/-- Page `k` of a concrete record stream: the 100 numbers
`100*(k-1), ..., 100*k - 1`. -/
def witnessPages (k : Nat) : List Nat := List.range' ((k - 1) * 100) 100

/-- `get_api_url "ep" none`. -/
def epUrl : String := "ep?per_page=100"

/-- A network on which every request raises `MaxRetryError`. -/
def netAllFail : String → NetResult Nat := fun _ => .maxRetryError

/-- Pages 1 and 2 are full (100 records each), the request for page 3 raises
`MaxRetryError`. -/
def netFailPage3 : String → NetResult Nat := fun u =>
  if u = epUrl then .success (witnessPages 1)
  else if u = pageUrl epUrl 2 then .success (witnessPages 2)
  else .maxRetryError

/-- Every request succeeds with a full page of 100 records, indefinitely. -/
def netAllFull : String → NetResult Nat := fun _ => .success (List.range' 0 100)

/-- Pages 1 to 3 are full (100 records each), page 4 has 40 records. -/
def netFourPages : String → NetResult Nat := fun u =>
  if u = epUrl then .success (witnessPages 1)
  else if u = pageUrl epUrl 2 then .success (witnessPages 2)
  else if u = pageUrl epUrl 3 then .success (witnessPages 3)
  else if u = pageUrl epUrl 4 then .success (List.range' 300 40)
  else .maxRetryError

/-- Page 1 has only 40 records; any further request would fail. -/
def netOneShortPage : String → NetResult Nat := fun u =>
  if u = epUrl then .success (List.range' 0 40) else .maxRetryError

/-- The page stream served by `netFourPages`. -/
def fourPages (k : Nat) : List Nat :=
  if k = 4 then List.range' 300 40 else witnessPages k

/-- A concrete `GithubRepo` collection state: contributors fetched (3
records), forks `None`, releases an empty list, issues one record, commits
`None`. -/
def repoStateW : GithubRepoCollections Nat := ⟨some [1, 2, 3], none, some [], some [5], none⟩

/-! ### Helper lemmas about the embedded definitions -/

theorem paginatedLoop_false {α : Type} (net : String → NetResult α) (url : String)
    (page_number : Nat) (data : List α) :
    paginatedLoop net url page_number data false = (data, []) := by
  rw [paginatedLoop]
  simp

theorem paginatedLoop_retry {α : Type} (net : String → NetResult α) (url : String)
    (page_number : Nat) (data : List α)
    (h : net (pageUrl url (page_number + 1)) = .maxRetryError) :
    paginatedLoop net url page_number data true =
      (data, [pageUrl url (page_number + 1)]) := by
  rw [paginatedLoop]
  simp [h]

theorem paginatedLoop_success {α : Type} (net : String → NetResult α) (url : String)
    (page_number : Nat) (data new_data : List α)
    (h : net (pageUrl url (page_number + 1)) = .success new_data) :
    paginatedLoop net url page_number data true =
      ((paginatedLoop net url (page_number + 1) (data ++ new_data)
          (new_data.length == max_elements_per_page && decide (page_number + 1 < max_pages))).1,
       pageUrl url (page_number + 1) ::
         (paginatedLoop net url (page_number + 1) (data ++ new_data)
          (new_data.length == max_elements_per_page && decide (page_number + 1 < max_pages))).2) := by
  rw [paginatedLoop]
  simp [h]

theorem paginated_api_call_retry {α : Type} (net : String → NetResult α)
    (api_endpoint : String) (extra_params : Option String)
    (h : net (get_api_url api_endpoint extra_params) = .maxRetryError) :
    paginated_api_call net api_endpoint extra_params =
      (none, [get_api_url api_endpoint extra_params]) := by
  rw [paginated_api_call]
  simp [h]

theorem paginated_api_call_success {α : Type} (net : String → NetResult α)
    (api_endpoint : String) (extra_params : Option String) (data : List α)
    (h : net (get_api_url api_endpoint extra_params) = .success data) :
    paginated_api_call net api_endpoint extra_params =
      (some (paginatedLoop net (get_api_url api_endpoint extra_params) 1 data
              (data.length == max_elements_per_page)).1,
       get_api_url api_endpoint extra_params ::
         (paginatedLoop net (get_api_url api_endpoint extra_params) 1 data
              (data.length == max_elements_per_page)).2) := by
  rw [paginated_api_call]
  simp [h]

/-- The first request URL of a paginated call is always
`get_api_url api_endpoint extra_params`, whatever the network does. -/
theorem paginated_api_call_head_url {α : Type} (net : String → NetResult α)
    (api_endpoint : String) (extra_params : Option String) :
    (paginated_api_call net api_endpoint extra_params).2.head? =
      some (get_api_url api_endpoint extra_params) := by
  rw [paginated_api_call]
  cases h : net (get_api_url api_endpoint extra_params) <;> simp

theorem pagesConcat_empty {α : Type} (pages : Nat → List α) (a b : Nat) (h : b < a) :
    pagesConcat pages a b = [] := by
  unfold pagesConcat
  have : b + 1 - a = 0 := by omega
  rw [this]
  simp

theorem pagesConcat_cons {α : Type} (pages : Nat → List α) (a b : Nat) (h : a ≤ b) :
    pagesConcat pages a b = pages a ++ pagesConcat pages (a + 1) b := by
  unfold pagesConcat
  have h1 : b + 1 - a = (b + 1 - (a + 1)) + 1 := by omega
  rw [h1, List.range'_succ]
  simp

/-- `splitChar` never returns the empty list (Python's `str.split` always
yields at least one segment). -/
theorem splitChar_ne_nil (sep : Char) (cs : List Char) : splitChar sep cs ≠ [] := by
  cases cs with
  | nil => simp [splitChar]
  | cons c cs =>
      rw [splitChar]
      cases splitChar sep cs with
      | nil => simp
      | cons r rs =>
          by_cases h : c = sep <;> simp [h]

/-- Each run of the pagination loop issues at most `max (max_pages - p) 1`
requests when the flag is set, none otherwise. -/
theorem paginatedLoop_trace_length_le {α : Type} (net : String → NetResult α) (url : String) :
    ∀ (k page_number : Nat) (data : List α) (paginate : Bool),
      max_pages - page_number ≤ k →
      (paginatedLoop net url page_number data paginate).2.length ≤
        cond paginate (max (max_pages - page_number) 1) 0 := by
  have e3 : max_pages = 10 := rfl
  intro k
  induction k with
  | zero =>
      intro p data pag hk
      cases pag with
      | false => rw [paginatedLoop_false]; simp
      | true =>
          cases hnet : net (pageUrl url (p + 1)) with
          | maxRetryError =>
              rw [paginatedLoop_retry net url p data hnet]
              simp only [Bool.cond_true, List.length_singleton]
              exact le_max_right (max_pages - p) 1
          | success nd =>
              rw [paginatedLoop_success net url p data nd hnet]
              have hdec : decide (p + 1 < max_pages) = false := by
                rw [e3] at hk ⊢
                exact decide_eq_false (by omega)
              rw [hdec, Bool.and_false, paginatedLoop_false]
              simp only [Bool.cond_true, List.length_cons, List.length_nil]
              exact le_max_right (max_pages - p) 1
  | succ k ih =>
      intro p data pag hk
      cases pag with
      | false => rw [paginatedLoop_false]; simp
      | true =>
          cases hnet : net (pageUrl url (p + 1)) with
          | maxRetryError =>
              rw [paginatedLoop_retry net url p data hnet]
              simp only [Bool.cond_true, List.length_singleton]
              exact le_max_right (max_pages - p) 1
          | success nd =>
              rw [paginatedLoop_success net url p data nd hnet]
              cases hpag : (nd.length == max_elements_per_page && decide (p + 1 < max_pages)) with
              | false =>
                  rw [paginatedLoop_false]
                  simp only [Bool.cond_true, List.length_cons, List.length_nil]
                  exact le_max_right (max_pages - p) 1
              | true =>
                  have hlt : p + 1 < max_pages :=
                    of_decide_eq_true ((Bool.and_eq_true _ _).mp hpag).2
                  have hrec := ih (p + 1) (data ++ nd) true (by rw [e3] at hk ⊢; omega)
                  simp only [List.length_cons, Bool.cond_true] at hrec ⊢
                  rw [max_eq_left (by rw [e3] at hlt ⊢; omega)] at hrec ⊢
                  rw [e3] at hlt hrec ⊢
                  omega

/-- A paginated call never issues more than `max_pages` HTTP requests. -/
theorem paginated_api_call_trace_length_le {α : Type} (net : String → NetResult α)
    (api_endpoint : String) (extra_params : Option String) :
    (paginated_api_call net api_endpoint extra_params).2.length ≤ max_pages := by
  cases hnet : net (get_api_url api_endpoint extra_params) with
  | maxRetryError =>
      rw [paginated_api_call_retry net _ _ hnet]
      simp [max_pages]
  | success d =>
      rw [paginated_api_call_success net _ _ d hnet]
      have hb := paginatedLoop_trace_length_le net (get_api_url api_endpoint extra_params)
        max_pages 1 d (d.length == max_elements_per_page) (by omega)
      simp only [List.length_cons]
      cases hc : (d.length == max_elements_per_page) with
      | false =>
          rw [hc] at hb
          simp only [Bool.cond_false] at hb
          have e3 : max_pages = 10 := rfl
          omega
      | true =>
          rw [hc] at hb
          simp only [Bool.cond_true] at hb
          have e3 : max_pages = 10 := rfl
          rw [max_eq_left (by rw [e3]; omega)] at hb
          rw [e3] at hb ⊢
          omega

/-- When pages `2, ..., n-1` are full and the request for page `n` raises a
connection failure, the loop started after a full page 1 returns exactly the
data accumulated through page `n-1`. -/
theorem paginatedLoop_stops_at_failure {α : Type} (net : String → NetResult α) (url : String)
    (pages : Nat → List α) (n : Nat)
    (hfull : ∀ k, 2 ≤ k → k < n →
      net (pageUrl url k) = .success (pages k) ∧ (pages k).length = max_elements_per_page)
    (hfail : net (pageUrl url n) = .maxRetryError)
    (hn : n ≤ max_pages) :
    ∀ (k p : Nat) (data : List α), p + 1 + k = n → 1 ≤ p →
      (paginatedLoop net url p data true).1 = data ++ pagesConcat pages (p + 1) (n - 1) := by
  have e3 : max_pages = 10 := rfl
  intro k
  induction k with
  | zero =>
      intro p data hpk hp
      have hpn : p + 1 = n := by omega
      rw [paginatedLoop_retry net url p data (by rw [hpn]; exact hfail)]
      rw [hpn, pagesConcat_empty pages n (n - 1) (by omega)]
      simp
  | succ k ih =>
      intro p data hpk hp
      have hk : p + 1 < n := by omega
      obtain ⟨hsucc, hlen⟩ := hfull (p + 1) (by omega) hk
      rw [paginatedLoop_success net url p data (pages (p + 1)) hsucc]
      have hpag : ((pages (p + 1)).length == max_elements_per_page &&
          decide (p + 1 < max_pages)) = true := by
        rw [hlen]
        simp only [beq_self_eq_true, Bool.true_and]
        exact decide_eq_true (by rw [e3] at hn ⊢; omega)
      rw [hpag]
      rw [ih (p + 1) (data ++ pages (p + 1)) (by omega) (by omega)]
      rw [List.append_assoc]
      congr 1
      rw [← pagesConcat_cons pages (p + 1) (n - 1) (by omega)]

/-- When every page up to `max_pages` is full, the loop started after a full
page 1 fetches exactly pages `p+1, ..., max_pages`: `k * 100` more records in
`k` more requests, where `p + k = max_pages`. -/
theorem paginatedLoop_all_full {α : Type} (net : String → NetResult α) (url : String)
    (pages : Nat → List α)
    (hfull : ∀ k, 2 ≤ k → k ≤ max_pages →
      net (pageUrl url k) = .success (pages k) ∧ (pages k).length = max_elements_per_page) :
    ∀ (k p : Nat) (data : List α), p + k = max_pages → 1 ≤ k → 1 ≤ p →
      (paginatedLoop net url p data true).1.length = data.length + k * max_elements_per_page ∧
      (paginatedLoop net url p data true).2.length = k := by
  have e3 : max_pages = 10 := rfl
  intro k
  induction k with
  | zero => intro p data hpk hk1 hp; omega
  | succ k ih =>
      intro p data hpk hk1 hp
      obtain ⟨hsucc, hlen⟩ := hfull (p + 1) (by omega) (by omega)
      rw [paginatedLoop_success net url p data (pages (p + 1)) hsucc]
      cases k with
      | zero =>
          have hpag : ((pages (p + 1)).length == max_elements_per_page &&
              decide (p + 1 < max_pages)) = false := by
            rw [hlen]
            simp only [beq_self_eq_true, Bool.true_and]
            exact decide_eq_false (by rw [e3] at hpk ⊢; omega)
          rw [hpag, paginatedLoop_false]
          simp [hlen]
      | succ k' =>
          have hpag : ((pages (p + 1)).length == max_elements_per_page &&
              decide (p + 1 < max_pages)) = true := by
            rw [hlen]
            simp only [beq_self_eq_true, Bool.true_and]
            exact decide_eq_true (by rw [e3] at hpk ⊢; omega)
          rw [hpag]
          obtain ⟨ih1, ih2⟩ := ih (p + 1) (data ++ pages (p + 1)) (by omega) (by omega) (by omega)
          constructor
          · rw [ih1]
            simp [hlen]
            ring
          · simp [ih2]

/-- When pages `2, ..., m-1` are full and page `m` is short, the loop started
after a full page 1 fetches exactly pages `p+1, ..., m` and requests exactly
the URLs of those pages, in order. -/
theorem paginatedLoop_last_short {α : Type} (net : String → NetResult α) (url : String)
    (pages : Nat → List α) (m : Nat)
    (hfull : ∀ k, 2 ≤ k → k < m →
      net (pageUrl url k) = .success (pages k) ∧ (pages k).length = max_elements_per_page)
    (hlast : net (pageUrl url m) = .success (pages m))
    (hshort : (pages m).length ≠ max_elements_per_page)
    (hm : m ≤ max_pages) :
    ∀ (k p : Nat) (data : List α), p + 1 + k = m → 1 ≤ p →
      paginatedLoop net url p data true =
        (data ++ pagesConcat pages (p + 1) m,
         (List.range' (p + 1) (m - p)).map (pageUrl url)) := by
  intro k
  induction k with
  | zero =>
      intro p data hpk hp
      have hpn : p + 1 = m := by omega
      rw [paginatedLoop_success net url p data (pages m) (by rw [hpn]; exact hlast)]
      have hpag : ((pages m).length == max_elements_per_page &&
          decide (p + 1 < max_pages)) = false := by
        rw [beq_eq_false_iff_ne.mpr hshort]
        simp
      rw [hpag, paginatedLoop_false]
      have hconc : pagesConcat pages (p + 1) m = pages m ++ [] := by
        rw [hpn]
        rw [pagesConcat_cons pages m m le_rfl]
        rw [pagesConcat_empty pages (m + 1) m (by omega)]
      have hrange : m - p = 1 := by omega
      rw [hconc, hrange, hpn]
      simp
  | succ k ih =>
      intro p data hpk hp
      have hk : p + 1 < m := by omega
      obtain ⟨hsucc, hlen⟩ := hfull (p + 1) (by omega) hk
      rw [paginatedLoop_success net url p data (pages (p + 1)) hsucc]
      have e3 : max_pages = 10 := rfl
      have hpag : ((pages (p + 1)).length == max_elements_per_page &&
          decide (p + 1 < max_pages)) = true := by
        rw [hlen]
        simp only [beq_self_eq_true, Bool.true_and]
        exact decide_eq_true (by rw [e3] at hm ⊢; omega)
      rw [hpag]
      rw [ih (p + 1) (data ++ pages (p + 1)) (by omega) (by omega)]
      refine Prod.ext ?_ ?_
      · show (data ++ pages (p + 1)) ++ pagesConcat pages (p + 1 + 1) m =
          data ++ pagesConcat pages (p + 1) m
        rw [List.append_assoc]
        congr 1
        rw [← pagesConcat_cons pages (p + 1) m (by omega)]
      · show pageUrl url (p + 1) :: (List.range' (p + 1 + 1) (m - (p + 1))).map (pageUrl url) =
          (List.range' (p + 1) (m - p)).map (pageUrl url)
        have hmp : m - p = (m - (p + 1)) + 1 := by omega
        rw [hmp, List.range'_succ]
        simp

/-! ### The claims -/

/-- C1: for every endpoint and extra-params argument, if the very first HTTP
request of `_paginated_api_call` raises a connection-level failure
(`MaxRetryError`), the call returns `None` — a total failure with no partial
data returned. -/
theorem first_request_failure_returns_none {α : Type} (net : String → NetResult α)
    (api_endpoint : String) (extra_params : Option String)
    (h : net (get_api_url api_endpoint extra_params) = .maxRetryError) :
    (paginated_api_call net api_endpoint extra_params).1 = none := by
  rw [paginated_api_call_retry net api_endpoint extra_params h]

/-- C1, evaluated: on a network where every request fails, the paginated call
returns `none`. -/
theorem first_request_failure_returns_none_witness :
    (paginated_api_call netAllFail "ep" none).1 = none :=
  first_request_failure_returns_none netAllFail "ep" none rfl

/-- C2: if the first page succeeds as a full page, pages `2, ..., n-1` are
full, and the request for page `n` (`2 ≤ n ≤ max_pages`) raises a
connection-level failure, the call returns exactly the concatenation of the
pages fetched before the failure: pages `1` through `n-1`. -/
theorem later_page_failure_returns_pages_before_failure {α : Type}
    (net : String → NetResult α) (api_endpoint : String) (extra_params : Option String)
    (pages : Nat → List α) (n : Nat)
    (h1 : net (get_api_url api_endpoint extra_params) = .success (pages 1))
    (l1 : (pages 1).length = max_elements_per_page)
    (hfull : ∀ k, 2 ≤ k → k < n →
      net (pageUrl (get_api_url api_endpoint extra_params) k) = .success (pages k) ∧
      (pages k).length = max_elements_per_page)
    (hfail : net (pageUrl (get_api_url api_endpoint extra_params) n) = .maxRetryError)
    (h2 : 2 ≤ n) (h10 : n ≤ max_pages) :
    (paginated_api_call net api_endpoint extra_params).1 =
      some (pagesConcat pages 1 (n - 1)) := by
  rw [paginated_api_call_success net api_endpoint extra_params (pages 1) h1]
  rw [l1]
  simp only [beq_self_eq_true]
  rw [paginatedLoop_stops_at_failure net (get_api_url api_endpoint extra_params) pages n
    hfull hfail h10 (n - 2) 1 (pages 1) (by omega) le_rfl]
  rw [← pagesConcat_cons pages 1 (n - 1) (by omega)]

set_option maxRecDepth 10000 in
/-- C2, evaluated: the 3rd request fails after two full pages, so the call
returns the 200 records of pages 1 and 2. -/
theorem later_page_failure_returns_pages_before_failure_witness :
    (paginated_api_call netFailPage3 "ep" none).1 = some (pagesConcat witnessPages 1 2) ∧
    pagesConcat witnessPages 1 2 = List.range' 0 200 := by
  refine ⟨?_, by decide⟩
  refine later_page_failure_returns_pages_before_failure netFailPage3 "ep" none
    witnessPages 3 (by decide) (by decide) ?_ (by decide) (by decide) (by decide)
  intro k hk2 hk3
  have hk : k = 2 := by omega
  subst hk
  exact ⟨by decide, by decide⟩

/-- C3: `_paginated_api_call` is a total function (it terminates on every
network oracle); for every endpoint and extra-params argument it issues at
most `max_pages = 10` HTTP requests (never an 11th); and on an endpoint that
answers every request with a full page of exactly 100 records, indefinitely,
it returns exactly 1000 records in exactly 10 requests. -/
theorem pagination_caps_at_ten_requests :
    (∀ (α : Type) (net : String → NetResult α) (api_endpoint : String)
      (extra_params : Option String),
      (paginated_api_call net api_endpoint extra_params).2.length ≤ max_pages) ∧
    (∀ (α : Type) (net : String → NetResult α) (api_endpoint : String)
      (extra_params : Option String) (pages : Nat → List α),
      net (get_api_url api_endpoint extra_params) = .success (pages 1) →
      (pages 1).length = max_elements_per_page →
      (∀ k, 2 ≤ k → k ≤ max_pages →
        net (pageUrl (get_api_url api_endpoint extra_params) k) = .success (pages k) ∧
        (pages k).length = max_elements_per_page) →
      (paginated_api_call net api_endpoint extra_params).1.map List.length = some 1000 ∧
      (paginated_api_call net api_endpoint extra_params).2.length = max_pages) := by
  constructor
  · intro α net api_endpoint extra_params
    exact paginated_api_call_trace_length_le net api_endpoint extra_params
  · intro α net api_endpoint extra_params pages h1 l1 hfull
    rw [paginated_api_call_success net api_endpoint extra_params (pages 1) h1]
    rw [l1]
    simp only [beq_self_eq_true]
    obtain ⟨hlen, htr⟩ := paginatedLoop_all_full net (get_api_url api_endpoint extra_params)
      pages hfull 9 1 (pages 1) (by rfl) (by omega) le_rfl
    constructor
    · show some ((paginatedLoop net (get_api_url api_endpoint extra_params) 1
        (pages 1) true).1.length) = some 1000
      rw [hlen, l1]
      rfl
    · simp only [List.length_cons]
      rw [htr]
      rfl

/-- C3, evaluated: on the always-full network the call returns 1000 records
in exactly 10 requests. -/
theorem pagination_caps_at_ten_requests_witness :
    (paginated_api_call netAllFull "ep" none).1.map List.length = some 1000 ∧
    (paginated_api_call netAllFull "ep" none).2.length = max_pages :=
  pagination_caps_at_ten_requests.2 Nat netAllFull "ep" none (fun _ => List.range' 0 100)
    rfl (by decide)
    (fun k _ _ => ⟨rfl, (by decide : (List.range' 0 100).length = max_elements_per_page)⟩)

/-- C4: on success the call returns the concatenation of all fetched pages in
fetch order: a first page with fewer than 100 records means exactly one
request returning exactly those records, and 3 pages of exactly 100 records
followed by a page of 40 means exactly 4 requests returning the 340 records
in original page order. -/
theorem success_returns_concatenation_in_page_order :
    (∀ (α : Type) (net : String → NetResult α) (api_endpoint : String)
      (extra_params : Option String) (d : List α),
      net (get_api_url api_endpoint extra_params) = .success d →
      d.length < max_elements_per_page →
      paginated_api_call net api_endpoint extra_params =
        (some d, [get_api_url api_endpoint extra_params])) ∧
    (∀ (α : Type) (net : String → NetResult α) (api_endpoint : String)
      (extra_params : Option String) (pages : Nat → List α),
      net (get_api_url api_endpoint extra_params) = .success (pages 1) →
      (pages 1).length = max_elements_per_page →
      net (pageUrl (get_api_url api_endpoint extra_params) 2) = .success (pages 2) →
      (pages 2).length = max_elements_per_page →
      net (pageUrl (get_api_url api_endpoint extra_params) 3) = .success (pages 3) →
      (pages 3).length = max_elements_per_page →
      net (pageUrl (get_api_url api_endpoint extra_params) 4) = .success (pages 4) →
      (pages 4).length = 40 →
      paginated_api_call net api_endpoint extra_params =
        (some (pages 1 ++ pages 2 ++ pages 3 ++ pages 4),
         [get_api_url api_endpoint extra_params,
          pageUrl (get_api_url api_endpoint extra_params) 2,
          pageUrl (get_api_url api_endpoint extra_params) 3,
          pageUrl (get_api_url api_endpoint extra_params) 4]) ∧
      (pages 1 ++ pages 2 ++ pages 3 ++ pages 4).length = 340) := by
  constructor
  · intro α net api_endpoint extra_params d h hlen
    rw [paginated_api_call_success net api_endpoint extra_params d h]
    rw [beq_eq_false_iff_ne.mpr (by omega : d.length ≠ max_elements_per_page)]
    rw [paginatedLoop_false]
  · intro α net api_endpoint extra_params pages h1 l1 h2 l2 h3 l3 h4 l4
    have hfull : ∀ k, 2 ≤ k → k < 4 →
        net (pageUrl (get_api_url api_endpoint extra_params) k) = .success (pages k) ∧
        (pages k).length = max_elements_per_page := by
      intro k hk2 hk4
      have hk : k = 2 ∨ k = 3 := by omega
      rcases hk with hk | hk <;> subst hk
      · exact ⟨h2, l2⟩
      · exact ⟨h3, l3⟩
    have hshort : (pages 4).length ≠ max_elements_per_page := by
      rw [l4]; decide
    constructor
    · rw [paginated_api_call_success net api_endpoint extra_params (pages 1) h1]
      rw [l1]
      simp only [beq_self_eq_true]
      rw [paginatedLoop_last_short net (get_api_url api_endpoint extra_params) pages 4
        hfull h4 hshort (by decide) 2 1 (pages 1) (by omega) le_rfl]
      refine Prod.ext ?_ ?_
      · show some (pages 1 ++ pagesConcat pages 2 4) =
          some (pages 1 ++ pages 2 ++ pages 3 ++ pages 4)
        have hc : pagesConcat pages 2 4 = pages 2 ++ (pages 3 ++ (pages 4 ++ [])) := rfl
        rw [hc]
        simp [List.append_assoc]
      · show get_api_url api_endpoint extra_params ::
          (List.range' 2 3).map (pageUrl (get_api_url api_endpoint extra_params)) = _
        rfl
    · simp only [List.length_append, l1, l2, l3, l4]
      rfl

/-- C4, evaluated: a 40-record first page means one request returning those
records; 3 full pages then a 40-record page means 4 requests returning the
pages concatenated in order. -/
theorem success_returns_concatenation_in_page_order_witness :
    paginated_api_call netOneShortPage "ep" none = (some (List.range' 0 40), [epUrl]) ∧
    paginated_api_call netFourPages "ep" none =
      (some (witnessPages 1 ++ witnessPages 2 ++ witnessPages 3 ++ List.range' 300 40),
       [epUrl, pageUrl epUrl 2, pageUrl epUrl 3, pageUrl epUrl 4]) := by
  constructor
  · exact success_returns_concatenation_in_page_order.1 Nat netOneShortPage "ep" none
      (List.range' 0 40) (by decide) (by decide)
  · exact (success_returns_concatenation_in_page_order.2 Nat netFourPages "ep" none
      fourPages (by decide) (by decide) (by decide) (by decide) (by decide) (by decide)
      (by decide) (by decide)).1

/-- C5: `get_api_url` returns the endpoint, then `?`, then the extra params
(when a non-empty fragment is supplied) followed by `&`, then `per_page=100`;
and `get_issues` delegates to the paginated fetch with the extra parameter
`state=all`, so its first request URL is the issues endpoint followed by
`?state=all&per_page=100` (in particular it ends in that suffix). -/
theorem api_url_shape_and_issues_url :
    (∀ (api_endpoint x : String), x ≠ "" →
      get_api_url api_endpoint (some x) = api_endpoint ++ "?" ++ x ++ "&" ++ "per_page=100") ∧
    (∀ (α : Type) (net : String → NetResult α) (owner name : String),
      (get_issues net owner name).2.head? =
        some (issues_endpoint owner name ++ "?state=all&per_page=100")) := by
  constructor
  · intro api_endpoint x h
    have ht : pyTruthy (some x) = true := by
      cases hx : x.isEmpty with
      | false => simp [pyTruthy, hx]
      | true => exact absurd ((String.isEmpty_iff x).mp hx) h
    rw [get_api_url]
    simp only [ht, if_true, Option.getD_some]
    simp only [String.append_assoc]
    rfl
  · intro α net owner name
    rw [get_issues, paginated_api_call_head_url]
    congr 1
    rw [get_api_url]
    simp only [String.append_assoc]
    rfl

/-- C5, evaluated: a non-empty fragment is placed between `?` and
`&per_page=100`, and the first issues-request URL carries `state=all`. -/
theorem api_url_shape_and_issues_url_witness :
    get_api_url "ep" (some "state=all") = "ep" ++ "?" ++ "state=all" ++ "&" ++ "per_page=100" ∧
    (get_issues netAllFail "foo" "bar").2.head? =
      some (issues_endpoint "foo" "bar" ++ "?state=all&per_page=100") :=
  ⟨api_url_shape_and_issues_url.1 "ep" "state=all" (by decide),
   api_url_shape_and_issues_url.2 Nat netAllFail "foo" "bar"⟩

/-- C6: for every URL whose split on `/` has at least two segments,
`get_owner` returns the second-to-last segment and `get_name` the last
segment. -/
theorem owner_and_name_are_last_two_segments (url : String)
    (h : 2 ≤ (splitChar '/' url.toList).length) :
    get_owner url = ((splitChar '/' url.toList).reverse[1]?).map (fun cs => String.mk cs) ∧
    get_name url = ((splitChar '/' url.toList).reverse[0]?).map (fun cs => String.mk cs) := by
  constructor
  · show (pyIndex (splitChar '/' url.toList) (-2)).map _ = _
    rw [pyIndex]
    rw [if_neg (by omega : ¬ (0 : Int) ≤ -2)]
    rw [if_pos (by omega : (0 : Int) ≤ ((splitChar '/' url.toList).length : Int) + (-2))]
    rw [List.getElem?_reverse (by omega : 1 < (splitChar '/' url.toList).length)]
    congr 2
    omega
  · show (pyIndex (splitChar '/' url.toList) (-1)).map _ = _
    rw [pyIndex]
    rw [if_neg (by omega : ¬ (0 : Int) ≤ -1)]
    rw [if_pos (by omega : (0 : Int) ≤ ((splitChar '/' url.toList).length : Int) + (-1))]
    rw [List.getElem?_reverse (by omega : 0 < (splitChar '/' url.toList).length)]
    congr 2
    omega

/-- C6, evaluated: `get_owner "https://github.com/foo/bar" = some "foo"` and
`get_name "https://github.com/foo/bar" = some "bar"`. -/
theorem owner_and_name_are_last_two_segments_witness :
    get_owner "https://github.com/foo/bar" = some "foo" ∧
    get_name "https://github.com/foo/bar" = some "bar" :=
  ⟨(owner_and_name_are_last_two_segments "https://github.com/foo/bar" (by decide)).1.trans
      (by decide),
   (owner_and_name_are_last_two_segments "https://github.com/foo/bar" (by decide)).2.trans
      (by decide)⟩

/-- C7 counterexample: `"nourl"` has fewer than two `/`-separated segments
and `get_owner` raises an `IndexError` on it (modelled by `none`) instead of
returning a value — `self.url.split('/')[-2]` indexes a one-element list at
position `-2`. -/
theorem get_owner_raises_on_slashless_url :
    (splitChar '/' "nourl".toList).length < 2 ∧ get_owner "nourl" = none := by
  decide

/-- C7 as amended: for every malformed URL (fewer than two `/`-separated
segments), `get_name` does not raise — it fails silently by returning a
(wrong) value — but `get_owner` raises an `IndexError` (modelled by `none`):
indexing the one-element split at `-2` is out of range. -/
theorem malformed_url_name_silent_owner_raises (url : String)
    (h : (splitChar '/' url.toList).length < 2) :
    (get_name url).isSome = true ∧ get_owner url = none := by
  have hne := splitChar_ne_nil '/' url.toList
  have h1 : (splitChar '/' url.toList).length = 1 := by
    have := List.length_pos.mpr hne
    omega
  obtain ⟨a, ha⟩ := List.length_eq_one.mp h1
  constructor
  · show ((pyIndex (splitChar '/' url.toList) (-1)).map _).isSome = true
    rw [ha]
    rfl
  · show (pyIndex (splitChar '/' url.toList) (-2)).map _ = none
    rw [ha]
    rfl

/-- C7 as amended, evaluated at the slashless URL `"nourl"`. -/
theorem malformed_url_name_silent_owner_raises_witness :
    (get_name "nourl").isSome = true ∧ get_owner "nourl" = none :=
  ⟨(malformed_url_name_silent_owner_raises "nourl" (by decide)).1,
   (malformed_url_name_silent_owner_raises "nourl" (by decide)).2⟩

/-- C8: for every commit record whose `commit.author.date` string parses in
the fixed format `YYYY-MM-DDTHH:MM:SSZ` and every reference datetime,
`is_commit_before_date` returns `True` exactly when the parsed commit date
strictly precedes the reference date (strict lexicographic order on the
datetime fields). -/
theorem commit_before_date_iff_strictly_precedes (s : String) (cd d : PyDateTime)
    (h : strptime_commit_date s = some cd) :
    is_commit_before_date ⟨⟨⟨s⟩⟩⟩ d = some (PyDateTime.lt cd d) ∧
    (is_commit_before_date ⟨⟨⟨s⟩⟩⟩ d = some true ↔ PyDateTime.lt cd d = true) := by
  have he : is_commit_before_date ⟨⟨⟨s⟩⟩⟩ d = some (PyDateTime.lt cd d) := by
    rw [is_commit_before_date]
    show (strptime_commit_date s).map _ = _
    rw [h]
    rfl
  refine ⟨he, ?_⟩
  rw [he]
  exact ⟨fun h' => Option.some_inj.mp h', fun h' => by rw [h']⟩

/-- C8, evaluated: a commit dated `2020-01-01T00:00:00Z` precedes 2021-01-01
(`some true`); with the dates reversed the result is `some false`. -/
theorem commit_before_date_iff_strictly_precedes_witness :
    is_commit_before_date ⟨⟨⟨"2020-01-01T00:00:00Z"⟩⟩⟩ ⟨2021, 1, 1, 0, 0, 0⟩ = some true ∧
    is_commit_before_date ⟨⟨⟨"2021-01-01T00:00:00Z"⟩⟩⟩ ⟨2020, 1, 1, 0, 0, 0⟩ = some false :=
  ⟨(commit_before_date_iff_strictly_precedes "2020-01-01T00:00:00Z" ⟨2020, 1, 1, 0, 0, 0⟩
      ⟨2021, 1, 1, 0, 0, 0⟩ (by decide)).1.trans (by decide),
   (commit_before_date_iff_strictly_precedes "2021-01-01T00:00:00Z" ⟨2021, 1, 1, 0, 0, 0⟩
      ⟨2020, 1, 1, 0, 0, 0⟩ (by decide)).1.trans (by decide)⟩

/-- C9: each total-count accessor returns the length of the corresponding
already-fetched collection when that collection is a list, and fails
(Python `TypeError` on `len(None)`, modelled by `none`) when the collection
is `None`. -/
theorem total_count_accessors_length_or_fail (α : Type) (r : GithubRepoCollections α) :
    ((∀ l, r.contributors = some l → get_total_contributors r = some l.length) ∧
      (r.contributors = none → get_total_contributors r = none)) ∧
    ((∀ l, r.forks = some l → get_total_forks r = some l.length) ∧
      (r.forks = none → get_total_forks r = none)) ∧
    ((∀ l, r.releases = some l → get_total_releases r = some l.length) ∧
      (r.releases = none → get_total_releases r = none)) ∧
    ((∀ l, r.issues = some l → get_total_issues r = some l.length) ∧
      (r.issues = none → get_total_issues r = none)) ∧
    ((∀ l, r.commits = some l → get_total_commits r = some l.length) ∧
      (r.commits = none → get_total_commits r = none)) :=
  ⟨⟨fun l h => by rw [get_total_contributors, h]; rfl,
    fun h => by rw [get_total_contributors, h]; rfl⟩,
   ⟨fun l h => by rw [get_total_forks, h]; rfl,
    fun h => by rw [get_total_forks, h]; rfl⟩,
   ⟨fun l h => by rw [get_total_releases, h]; rfl,
    fun h => by rw [get_total_releases, h]; rfl⟩,
   ⟨fun l h => by rw [get_total_issues, h]; rfl,
    fun h => by rw [get_total_issues, h]; rfl⟩,
   ⟨fun l h => by rw [get_total_commits, h]; rfl,
    fun h => by rw [get_total_commits, h]; rfl⟩⟩

/-- C9, evaluated on a concrete state: fetched collections yield their
lengths, `None` collections fail. -/
theorem total_count_accessors_length_or_fail_witness :
    get_total_contributors repoStateW = some 3 ∧
    get_total_forks repoStateW = none ∧
    get_total_releases repoStateW = some 0 ∧
    get_total_issues repoStateW = some 1 ∧
    get_total_commits repoStateW = none :=
  ⟨((total_count_accessors_length_or_fail Nat repoStateW).1.1 [1, 2, 3] rfl).trans rfl,
   (total_count_accessors_length_or_fail Nat repoStateW).2.1.2 rfl,
   ((total_count_accessors_length_or_fail Nat repoStateW).2.2.1.1 [] rfl).trans rfl,
   ((total_count_accessors_length_or_fail Nat repoStateW).2.2.2.1.1 [5] rfl).trans rfl,
   (total_count_accessors_length_or_fail Nat repoStateW).2.2.2.2.2 rfl⟩

/-- C10: `get_api_url` treats an empty-string extra-params argument the same
as `None` (Python truthiness skips any falsy value): both produce
`endpoint ++ "?per_page=100"` with no stray `&` before `per_page`. -/
theorem empty_extra_params_same_as_none (api_endpoint : String) :
    get_api_url api_endpoint (some "") = get_api_url api_endpoint none ∧
    get_api_url api_endpoint none = api_endpoint ++ "?per_page=100" := by
  refine ⟨rfl, ?_⟩
  rw [get_api_url]
  simp only [pyTruthy, Bool.false_eq_true, if_false]
  rw [String.append_empty, String.append_assoc]
  rfl

/-- C10, evaluated at a concrete endpoint. -/
theorem empty_extra_params_same_as_none_witness :
    get_api_url "ep" (some "") = "ep?per_page=100" ∧
    get_api_url "ep" none = "ep?per_page=100" :=
  ⟨((empty_extra_params_same_as_none "ep").1).trans
      (((empty_extra_params_same_as_none "ep").2).trans (by decide)),
   ((empty_extra_params_same_as_none "ep").2).trans (by decide)⟩

end SupplyChainScore
